import Mathlib

/-!
Verification of the NeuroFlow RNN step-visualizer core.

The development shallowly embeds the TypeScript sources:
* `src/utils/math.ts` — vector algebra and the cell evaluator `calculateModel`;
* `src/types.ts` — `SimulationParams` / `SimulationResult` / `ModelType`;
* the `VisualizerSVG` component — the step-sequencer state machine of the
  UGRNN diagram (`StepState`, `computeStep`, the `Node` click guard, the
  reset `useEffect`);
* the `Controls` component — `changeDim` and its local `resize`.

JavaScript `number` is modelled by `ℝ`; a JS array of numbers by `List ℝ`;
an optional field by `Option`.  An out-of-range indexed read guarded in the
source by `|| 0` is modelled by `List.getD _ _ 0` (for a real number `v`,
`v || 0` equals `v` when `v ≠ 0` and `0` when `v = 0`, hence always the
`getD` value).
-/

namespace NeuroFlow

open Real

/-- Scalar logistic sigmoid, the function applied elementwise by
`vecSigmoid`; used to state the spec-side formulas. -/
noncomputable def sigmoid (x : ℝ) : ℝ := 1 / (1 + Real.exp (-x))

/-- `vecSigmoid` from `src/utils/math.ts`:
`v.map(x => 1 / (1 + Math.exp(-(x + bias))))`. -/
noncomputable def vecSigmoid (v : List ℝ) (bias : ℝ) : List ℝ :=
  v.map fun x => 1 / (1 + Real.exp (-(x + bias)))

/-- `vecTanh` from `src/utils/math.ts`: `v.map(x => Math.tanh(x + bias))`
(the source gives `bias` the default value `0`; callers that omit it are
embedded passing `0` explicitly). -/
noncomputable def vecTanh (v : List ℝ) (bias : ℝ) : List ℝ :=
  v.map fun x => Real.tanh (x + bias)

/-- `vecAdd` from `src/utils/math.ts`:
`v1.map((val, i) => val + (v2[i] || 0))` — the result has `v1`'s length and a
missing (or zero) element of `v2` is read as `0`. -/
noncomputable def vecAdd (v1 v2 : List ℝ) : List ℝ :=
  v1.mapIdx fun i val => val + v2.getD i 0

/-- `vecMult` from `src/utils/math.ts`:
`v1.map((val, i) => val * (v2[i] || 0))`. -/
noncomputable def vecMult (v1 v2 : List ℝ) : List ℝ :=
  v1.mapIdx fun i val => val * v2.getD i 0

/-- `vecScalarMult` from `src/utils/math.ts`: `v.map(val => val * s)`. -/
noncomputable def vecScalarMult (s : ℝ) (v : List ℝ) : List ℝ :=
  v.map fun val => val * s

/-- `vecMix` from `src/utils/math.ts`:
`h.map((val, i) => (u[i] * val) + ((1 - u[i]) * s[i]))`.  The source reads
`u[i]` and `s[i]` without a default (a shorter `u` or `s` would produce `NaN`
in JS); the embedding is only ever used, and only ever reasoned about, at the
matched lengths the callers supply, where `getD _ _ 0` coincides with the
in-range read. -/
noncomputable def vecMix (u h s : List ℝ) : List ℝ :=
  h.mapIdx fun i val => u.getD i 0 * val + (1 - u.getD i 0) * s.getD i 0

/-- Three-list elementwise zip, used to state the spec-side formulas for the
gated blends (`u*h + (1-u)*s` and `(1-z)*h + z*n`). -/
noncomputable def zipWith3 (f : ℝ → ℝ → ℝ → ℝ) :
    List ℝ → List ℝ → List ℝ → List ℝ
  | a :: as, b :: bs, c :: cs => f a b c :: zipWith3 f as bs cs
  | _, _, _ => []

/-- `ModelType` from `src/types.ts`. -/
inductive ModelType
  | UGRNN
  | GRU
  | LSTM
deriving DecidableEq

/-- `SimulationParams` from `src/types.ts`; `cellC` is optional there. -/
structure SimulationParams where
  vectorSize : ℕ
  inputX : List ℝ
  hiddenH : List ℝ
  cellC : Option (List ℝ)
  biasGate1 : ℝ
  biasGate2 : ℝ
  biasGate3 : ℝ

/-- `SimulationResult` from `src/types.ts`; `finalC` and `tanhC` are optional
there (present only for the LSTM branch). -/
structure SimulationResult where
  finalH : List ℝ
  finalC : Option (List ℝ)
  gate1 : List ℝ
  gate2 : List ℝ
  gate3 : List ℝ
  candidateState : List ℝ
  tanhC : Option (List ℝ)

/-- `calculateModel` from `src/utils/math.ts`, branch by branch.  In the GRU
branch the final blend is the source's inline
`hiddenH.map((h, i) => ((1 - z_t[i]) * h) + (z_t[i] * n_t[i]))`, embedded with
`getD _ _ 0` for the indexed reads (see `vecMix` for the convention).  In the
LSTM branch `cellC || Array(inputX.length).fill(0)` becomes
`Option.getD` with the all-zeros default. -/
noncomputable def calculateModel (type : ModelType) (params : SimulationParams) :
    SimulationResult :=
  match type with
  | .UGRNN =>
      let sumXH := vecAdd params.inputX params.hiddenH
      let u_t := vecSigmoid sumXH params.biasGate1
      let s_t := vecTanh sumXH 0
      let h_t := vecMix u_t params.hiddenH s_t
      { finalH := h_t, finalC := none, gate1 := u_t, gate2 := [], gate3 := [],
        candidateState := s_t, tanhC := none }
  | .GRU =>
      let sumXH := vecAdd params.inputX params.hiddenH
      let r_t := vecSigmoid sumXH params.biasGate1
      let z_t := vecSigmoid sumXH params.biasGate2
      let r_h := vecMult r_t params.hiddenH
      let sum_x_rh := vecAdd params.inputX r_h
      let n_t := vecTanh sum_x_rh 0
      let h_t := params.hiddenH.mapIdx fun i h =>
        (1 - z_t.getD i 0) * h + z_t.getD i 0 * n_t.getD i 0
      { finalH := h_t, finalC := none, gate1 := r_t, gate2 := z_t, gate3 := [],
        candidateState := n_t, tanhC := none }
  | .LSTM =>
      let sumXH := vecAdd params.inputX params.hiddenH
      let f_t := vecSigmoid sumXH params.biasGate1
      let i_t := vecSigmoid sumXH params.biasGate2
      let o_t := vecSigmoid sumXH params.biasGate3
      let c_tilde := vecTanh sumXH 0
      let prevC := params.cellC.getD (List.replicate params.inputX.length 0)
      let term1 := vecMult f_t prevC
      let term2 := vecMult i_t c_tilde
      let c_t := vecAdd term1 term2
      let tanh_c := vecTanh c_t 0
      let h_t := vecMult o_t tanh_c
      { finalH := h_t, finalC := some c_t, gate1 := f_t, gate2 := i_t,
        gate3 := o_t, candidateState := c_tilde, tanhC := some tanh_c }

/-- The `resize` closure inside `changeDim` (`Controls` component):
keep the vector if it already has length `dim`, truncate with `slice(0, dim)`
if longer, append zeros if shorter. -/
noncomputable def resize (dim : ℕ) (v : List ℝ) : List ℝ :=
  if v.length = dim then v
  else if dim < v.length then v.take dim
  else v ++ List.replicate (dim - v.length) 0

/-- `changeDim` from the `Controls` component: resize every vector field;
an absent `cellC` becomes the all-zeros vector
(`params.cellC ? resize(params.cellC) : Array(dim).fill(0)`). -/
noncomputable def changeDim (dim : ℕ) (params : SimulationParams) :
    SimulationParams :=
  { params with
    vectorSize := dim
    inputX := resize dim params.inputX
    hiddenH := resize dim params.hiddenH
    cellC := some (match params.cellC with
      | some c => resize dim c
      | none => List.replicate dim 0) }

/-- `StepState` from the `VisualizerSVG` component:
`'pending' | 'active' | 'computing' | 'done'`. -/
inductive StepState
  | pending
  | active
  | computing
  | done
deriving DecidableEq, BEq

/-- The four step identifiers of the UGRNN diagram's sequencer
(`useState({ concat, gates, interp, add })`). -/
inductive UStep
  | concat
  | gates
  | interp
  | add
deriving DecidableEq

/-- The UGRNN diagram's node-state mapping (the `steps` React state). -/
structure USteps where
  concat : StepState
  gates : StepState
  interp : StepState
  add : StepState
deriving DecidableEq

/-- Initial state of the UGRNN sequencer
(`useState({ concat: 'active', gates: 'pending', interp: 'pending',
add: 'pending' })`). -/
def initialUSteps : USteps :=
  { concat := .active, gates := .pending, interp := .pending, add := .pending }

/-- Read one node's state out of the mapping. -/
def getUStep (s : USteps) : UStep → StepState
  | .concat => s.concat
  | .gates => s.gates
  | .interp => s.interp
  | .add => s.add

/-- Declared dependency set of each UGRNN node: the fixed chain the diagram's
`computeStep` advances through (`concat → gates → interp → add`). -/
def uDeps : UStep → List UStep
  | .concat => []
  | .gates => [.concat]
  | .interp => [.gates]
  | .add => [.interp]

/-- First half of `computeStep(step)` in the UGRNN diagram:
`setSteps(prev => ({ ...prev, [step]: 'computing' }))` — runs with no guard
on the node's current state. -/
def setComputing (s : USteps) : UStep → USteps
  | .concat => { s with concat := .computing }
  | .gates => { s with gates := .computing }
  | .interp => { s with interp := .computing }
  | .add => { s with add := .computing }

/-- The 500 ms `setTimeout` callback inside `computeStep(step)`: mark the
step `done` and activate its successor; for `add` it additionally schedules
`onComplete` (the "graph resolved" signal).  The returned `Bool` records
whether `onComplete` was emitted. -/
def stepTimeout (s : USteps) : UStep → USteps × Bool
  | .concat => ({ s with concat := .done, gates := .active }, false)
  | .gates => ({ s with gates := .done, interp := .active }, false)
  | .interp => ({ s with interp := .done, add := .active }, false)
  | .add => ({ s with add := .done }, true)

/-- The click guard of the `Node` component:
`onClick={(state === 'active' || onClick) ? onClick : undefined}` — a node
accepts a click when its state is `active` OR a handler was supplied at all.
Every step node of the diagrams supplies a handler. -/
def nodeAcceptsClick (state : StepState) (hasOnClick : Bool) : Bool :=
  (state == StepState.active) || hasOnClick

/-- One full user trigger on a UGRNN node: if the `Node` guard accepts the
click, `computeStep` fires (state to `computing`) and, the event loop being
otherwise idle, its scheduled callback then runs.  Returns the new node-state
mapping and whether `onComplete` was emitted. -/
def triggerU (n : UStep) (s : USteps) : USteps × Bool :=
  if nodeAcceptsClick (getUStep s n) true then stepTimeout (setComputing s n) n
  else (s, false)

/-- Run a sequence of user triggers from a state, counting how many times
`onComplete` ("graph resolved") is emitted. -/
def runTriggersU : List UStep → USteps → USteps × ℕ
  | [], s => (s, 0)
  | n :: ns, s =>
      let r := triggerU n s
      let rest := runTriggersU ns r.1
      (rest.1, (if r.2 then 1 else 0) + rest.2)

/-- The reset `useEffect` of the UGRNN diagram, run whenever
`params.inputX` or `params.hiddenH` changes: overwrite the node-state mapping
with the initial one.  The effect has no cleanup function and nothing in the
component ever calls `clearTimeout`, so a callback already scheduled by
`computeStep` stays pending across the reset. -/
def resetUSteps (_s : USteps) : USteps := initialUSteps

/-- The app's initial parameters (`App` component) — dimensionality 2,
`inputX = [1, 0]`, zero hidden and cell state, zero biases; the
UpdateGateCell end-to-end scenario of the spec. -/
noncomputable def exampleUGRNNParams : SimulationParams :=
  { vectorSize := 2, inputX := [1, 0], hiddenH := [0, 0], cellC := some [0, 0],
    biasGate1 := 0, biasGate2 := 0, biasGate3 := 0 }

/-- The LSTM end-to-end scenario of the spec: dimensionality 1,
`inputX = [2]`, zero hidden and cell state, zero biases. -/
noncomputable def exampleLSTMParams : SimulationParams :=
  { vectorSize := 1, inputX := [2], hiddenH := [0], cellC := some [0],
    biasGate1 := 0, biasGate2 := 0, biasGate3 := 0 }

/-- A one-dimensional GRU input with zero hidden state and zero biases. -/
noncomputable def exampleGRUParams : SimulationParams :=
  { vectorSize := 1, inputX := [1], hiddenH := [0], cellC := none,
    biasGate1 := 0, biasGate2 := 0, biasGate3 := 0 }

/-- LSTM parameters whose `cellC` field is absent. -/
noncomputable def exampleNoCellParams : SimulationParams :=
  { vectorSize := 1, inputX := [2], hiddenH := [0], cellC := none,
    biasGate1 := 0, biasGate2 := 0, biasGate3 := 0 }

/-- All-zero one-dimensional parameters. -/
noncomputable def exampleZeroParams : SimulationParams :=
  { vectorSize := 1, inputX := [0], hiddenH := [0], cellC := none,
    biasGate1 := 0, biasGate2 := 0, biasGate3 := 0 }

@[simp] theorem length_vecSigmoid (v : List ℝ) (b : ℝ) :
    (vecSigmoid v b).length = v.length := by
  simp [vecSigmoid]

@[simp] theorem length_vecTanh (v : List ℝ) (b : ℝ) :
    (vecTanh v b).length = v.length := by
  simp [vecTanh]

@[simp] theorem length_vecAdd (v1 v2 : List ℝ) :
    (vecAdd v1 v2).length = v1.length := by
  simp [vecAdd]

@[simp] theorem length_vecMult (v1 v2 : List ℝ) :
    (vecMult v1 v2).length = v1.length := by
  simp [vecMult]

/-- An indexed map over `v1` that reads `v2` through `getD _ _ 0` is a plain
`zipWith` once the two lists have equal length. -/
theorem mapIdx_getD_eq_zipWith (g : ℝ → ℝ → ℝ) :
    ∀ (v1 v2 : List ℝ), v2.length = v1.length →
      (v1.mapIdx fun i val => g val (v2.getD i 0)) = List.zipWith g v1 v2
  | [], v2, _ => by simp
  | a :: as, [], h => by simp at h
  | a :: as, b :: bs, h => by
    simp only [List.length_cons, Nat.succ.injEq] at h
    simp only [List.mapIdx_cons, List.getD_cons_zero, List.zipWith_cons_cons,
      List.getD_cons_succ]
    exact congrArg _ (mapIdx_getD_eq_zipWith g as bs h)

theorem vecAdd_eq_zipWith {v1 v2 : List ℝ} (h : v2.length = v1.length) :
    vecAdd v1 v2 = List.zipWith (· + ·) v1 v2 :=
  mapIdx_getD_eq_zipWith (· + ·) v1 v2 h

theorem vecMult_eq_zipWith {v1 v2 : List ℝ} (h : v2.length = v1.length) :
    vecMult v1 v2 = List.zipWith (· * ·) v1 v2 :=
  mapIdx_getD_eq_zipWith (· * ·) v1 v2 h

/-- An indexed map over `h` that reads `a` and `b` through `getD _ _ 0` is a
three-way zip once all three lists have equal length. -/
theorem mapIdx_getD2_eq_zipWith3 (g : ℝ → ℝ → ℝ → ℝ) :
    ∀ (a h b : List ℝ), a.length = h.length → b.length = h.length →
      (h.mapIdx fun i val => g (a.getD i 0) val (b.getD i 0)) =
        zipWith3 g a h b
  | _, [], _, _, _ => by simp [zipWith3]
  | [], h :: hs, _, ha, _ => by simp at ha
  | a :: as, h :: hs, [], _, hb => by simp at hb
  | a :: as, h :: hs, b :: bs, ha, hb => by
    simp only [List.length_cons, Nat.succ.injEq] at ha hb
    simp only [List.mapIdx_cons, List.getD_cons_zero, List.getD_cons_succ,
      zipWith3]
    exact congrArg _ (mapIdx_getD2_eq_zipWith3 g as hs bs ha hb)

theorem vecMix_eq_zipWith3 {u h s : List ℝ} (hu : u.length = h.length)
    (hs : s.length = h.length) :
    vecMix u h s = zipWith3 (fun a b c => a * b + (1 - a) * c) u h s := by
  unfold vecMix
  exact mapIdx_getD2_eq_zipWith3 (fun a b c => a * b + (1 - a) * c) u h s hu hs

theorem vecTanh_zero_bias (v : List ℝ) : vecTanh v 0 = v.map Real.tanh := by
  simp [vecTanh]

theorem vecSigmoid_eq_map_sigmoid (v : List ℝ) (b : ℝ) :
    vecSigmoid v b = v.map fun m => sigmoid (m + b) := by
  simp [vecSigmoid, sigmoid]

theorem sigmoid_mem_Ioo (x : ℝ) : sigmoid x ∈ Set.Ioo (0 : ℝ) 1 := by
  have hx := Real.exp_pos (-x)
  simp only [sigmoid, Set.mem_Ioo]
  constructor
  · positivity
  · rw [div_lt_one (by positivity)]
    linarith

theorem tanh_mem_Ioo (x : ℝ) : Real.tanh x ∈ Set.Ioo (-1 : ℝ) 1 := by
  simp only [Set.mem_Ioo]
  constructor
  · rw [Real.tanh_eq_sinh_div_cosh, lt_div_iff₀ (Real.cosh_pos x)]
    have h1 := Real.sinh_add_cosh x
    have h2 := Real.exp_pos x
    nlinarith
  · rw [Real.tanh_eq_sinh_div_cosh, div_lt_one (Real.cosh_pos x)]
    have h1 := Real.cosh_sub_sinh x
    have h2 := Real.exp_pos (-x)
    linarith

theorem mem_vecSigmoid {v : List ℝ} {b x : ℝ} (hx : x ∈ vecSigmoid v b) :
    x ∈ Set.Ioo (0 : ℝ) 1 := by
  simp only [vecSigmoid, List.mem_map] at hx
  obtain ⟨a, -, rfl⟩ := hx
  have h := sigmoid_mem_Ioo (a + b)
  simpa [sigmoid] using h

theorem mem_vecTanh {v : List ℝ} {b x : ℝ} (hx : x ∈ vecTanh v b) :
    x ∈ Set.Ioo (-1 : ℝ) 1 := by
  simp only [vecTanh, List.mem_map] at hx
  obtain ⟨a, -, rfl⟩ := hx
  exact tanh_mem_Ioo (a + b)

theorem getD_replicate_zero (n i : ℕ) :
    (List.replicate n (0 : ℝ)).getD i 0 = 0 := by
  rcases Nat.lt_or_ge i n with h | h
  · simp [List.getD_eq_getElem?_getD, List.getElem?_replicate, h]
  · simp [List.getD_eq_getElem?_getD, List.getElem?_replicate, Nat.not_lt.mpr h]

theorem mapIdx_const_zero :
    ∀ (as : List ℝ), (as.mapIdx fun _ _ => (0 : ℝ)) = List.replicate as.length 0
  | [] => rfl
  | a :: as => by
    simp only [List.mapIdx_cons, List.length_cons, List.replicate_succ]
    exact congrArg _ (mapIdx_const_zero as)

/-- Multiplying elementwise by a zero vector yields the zero vector, whatever
the zero vector's length (out-of-range reads also give zero). -/
theorem vecMult_replicate_zero (v : List ℝ) (n : ℕ) :
    vecMult v (List.replicate n 0) = List.replicate v.length 0 := by
  simp only [vecMult, getD_replicate_zero, mul_zero]
  exact mapIdx_const_zero v

/-- Adding a zero vector on the left is the identity at matched length. -/
theorem vecAdd_replicate_zero :
    ∀ (t : List ℝ), vecAdd (List.replicate t.length 0) t = t
  | [] => rfl
  | b :: bs => by
    simp only [vecAdd, List.length_cons, List.replicate_succ, List.mapIdx_cons,
      List.getD_cons_zero, List.getD_cons_succ, zero_add]
    refine congrArg _ ?_
    exact vecAdd_replicate_zero bs

theorem getD_vecAdd (v1 v2 : List ℝ) {i : ℕ} (h : i < v1.length) :
    (vecAdd v1 v2).getD i 0 = v1.getD i 0 + v2.getD i 0 := by
  simp [vecAdd, List.getD_eq_getElem?_getD, List.getElem?_mapIdx,
    List.getElem?_eq_getElem h]

theorem getD_vecMult (v1 v2 : List ℝ) {i : ℕ} (h : i < v1.length) :
    (vecMult v1 v2).getD i 0 = v1.getD i 0 * v2.getD i 0 := by
  simp [vecMult, List.getD_eq_getElem?_getD, List.getElem?_mapIdx,
    List.getElem?_eq_getElem h]

theorem resize_of_eq {dim : ℕ} {v : List ℝ} (h : v.length = dim) :
    resize dim v = v := by
  rw [resize, if_pos h]

theorem resize_of_lt {dim : ℕ} {v : List ℝ} (h : dim < v.length) :
    resize dim v = v.take dim := by
  rw [resize, if_neg (by omega), if_pos h]

theorem resize_of_gt {dim : ℕ} {v : List ℝ} (h : v.length < dim) :
    resize dim v = v ++ List.replicate (dim - v.length) 0 := by
  rw [resize, if_neg (by omega), if_neg (by omega)]

@[simp] theorem length_resize (dim : ℕ) (v : List ℝ) :
    (resize dim v).length = dim := by
  rcases Nat.lt_trichotomy v.length dim with h | h | h
  · rw [resize_of_gt h]
    simp
    omega
  · rw [resize_of_eq h, h]
  · rw [resize_of_lt h]
    simp
    omega

/-- Growing to `dim2 ≥ dim` with zero-fill and shrinking back is the
identity on vectors of length `dim`. -/
theorem resize_resize_of_le {dim dim2 : ℕ} (v : List ℝ) (hv : v.length = dim)
    (hle : dim ≤ dim2) : resize dim (resize dim2 v) = v := by
  rcases eq_or_lt_of_le hle with heq | hlt
  · subst heq
    rw [resize_of_eq hv, resize_of_eq hv]
  · have hlen : (v ++ List.replicate (dim2 - v.length) 0).length = dim2 := by
      simp
      omega
    rw [show resize dim2 v = v ++ List.replicate (dim2 - v.length) 0 from
        resize_of_gt (by omega),
      show resize dim (v ++ List.replicate (dim2 - v.length) 0) =
          (v ++ List.replicate (dim2 - v.length) 0).take dim from
        resize_of_lt (by rw [hlen]; omega)]
    exact List.take_left' hv

/-- One roundtrip step: after resizing to `dim2` and back to the original
length `dim`, every index below `min dim2 dim` still carries the original
value. -/
theorem resize_resize_getD {dim dim2 : ℕ} (v : List ℝ) (hv : v.length = dim)
    {i : ℕ} (hi : i < min dim2 dim) :
    (resize dim (resize dim2 v)).getD i 0 = v.getD i 0 := by
  rcases le_or_lt dim dim2 with hle | hlt
  · rw [resize_resize_of_le v hv hle]
  · have h1 : resize dim2 v = v.take dim2 := resize_of_lt (by omega)
    have hlen : (v.take dim2).length = dim2 := by
      simp
      omega
    have h2 : resize dim (v.take dim2) =
        v.take dim2 ++ List.replicate (dim - dim2) 0 := by
      rw [resize_of_gt (by omega), hlen]
    have hi2 : i < dim2 := by omega
    rw [h1, h2, List.getD_eq_getElem?_getD, List.getD_eq_getElem?_getD,
      List.getElem?_append_left (by omega), List.getElem?_take_of_lt hi2]

/-- Claim C5: for every SimulationParams (vectors at the configured matched
length), evaluate(UpdateGateCell, params) returns
gate1 = sigmoid(inputX + hiddenPrev, bias1),
candidateState = tanh(inputX + hiddenPrev, 0) (fixed zero candidate bias), and
finalHidden = gate1*hiddenPrev + (1 - gate1)*candidateState, elementwise. -/
theorem ugrnn_evaluate_formulas (p : SimulationParams)
    (hh : p.hiddenH.length = p.inputX.length) :
    (calculateModel ModelType.UGRNN p).gate1 =
      (List.zipWith (· + ·) p.inputX p.hiddenH).map
        (fun m => sigmoid (m + p.biasGate1)) ∧
    (calculateModel ModelType.UGRNN p).candidateState =
      (List.zipWith (· + ·) p.inputX p.hiddenH).map Real.tanh ∧
    (calculateModel ModelType.UGRNN p).finalH =
      zipWith3 (fun u h s => u * h + (1 - u) * s)
        (calculateModel ModelType.UGRNN p).gate1 p.hiddenH
        (calculateModel ModelType.UGRNN p).candidateState := by
  have hsum : vecAdd p.inputX p.hiddenH =
      List.zipWith (· + ·) p.inputX p.hiddenH := vecAdd_eq_zipWith hh
  simp only [calculateModel]
  refine ⟨?_, ?_, ?_⟩
  · rw [hsum, vecSigmoid_eq_map_sigmoid]
  · rw [hsum, vecTanh_zero_bias]
  · exact vecMix_eq_zipWith3 (by simp [hh]) (by simp [hh])

/-- Witness for C5: the spec's UpdateGateCell end-to-end scenario —
dimensionality 2, inputX=[1,0], hiddenPrev=[0,0], bias1=0 — gives
finalHidden = [(1-sigmoid 1)·tanh 1, 0] (≈ [0.205, 0]). -/
theorem ugrnn_evaluate_formulas_witness :
    exampleUGRNNParams.hiddenH.length = exampleUGRNNParams.inputX.length ∧
    (calculateModel ModelType.UGRNN exampleUGRNNParams).finalH =
      [(1 - sigmoid 1) * Real.tanh 1, 0] := by
  have h := ugrnn_evaluate_formulas exampleUGRNNParams rfl
  refine ⟨rfl, ?_⟩
  rw [h.2.2, h.1, h.2.1]
  norm_num [exampleUGRNNParams, zipWith3, Real.tanh_zero]

/-- Claim C4: for every SimulationParams (vectors at the configured matched
length), evaluate(GatedRecurrentUnit, params) returns
gate1 = sigmoid(inputX + hiddenPrev, bias1) (reset),
gate2 = sigmoid(inputX + hiddenPrev, bias2) (update),
candidateState = tanh(inputX + (gate1 * hiddenPrev), 0) — from the
reset-gated history, not the raw mix — and
finalHidden = (1 - gate2)*hiddenPrev + gate2*candidateState, elementwise. -/
theorem gru_evaluate_formulas (p : SimulationParams)
    (hh : p.hiddenH.length = p.inputX.length) :
    (calculateModel ModelType.GRU p).gate1 =
      (List.zipWith (· + ·) p.inputX p.hiddenH).map
        (fun m => sigmoid (m + p.biasGate1)) ∧
    (calculateModel ModelType.GRU p).gate2 =
      (List.zipWith (· + ·) p.inputX p.hiddenH).map
        (fun m => sigmoid (m + p.biasGate2)) ∧
    (calculateModel ModelType.GRU p).candidateState =
      (List.zipWith (· + ·) p.inputX
        (List.zipWith (· * ·) (calculateModel ModelType.GRU p).gate1
          p.hiddenH)).map Real.tanh ∧
    (calculateModel ModelType.GRU p).finalH =
      zipWith3 (fun z h n => (1 - z) * h + z * n)
        (calculateModel ModelType.GRU p).gate2 p.hiddenH
        (calculateModel ModelType.GRU p).candidateState := by
  have hsum : vecAdd p.inputX p.hiddenH =
      List.zipWith (· + ·) p.inputX p.hiddenH := vecAdd_eq_zipWith hh
  simp only [calculateModel]
  refine ⟨?_, ?_, ?_, ?_⟩
  · rw [hsum, vecSigmoid_eq_map_sigmoid]
  · rw [hsum, vecSigmoid_eq_map_sigmoid]
  · rw [show vecMult (vecSigmoid (vecAdd p.inputX p.hiddenH) p.biasGate1)
          p.hiddenH =
        List.zipWith (· * ·)
          (vecSigmoid (vecAdd p.inputX p.hiddenH) p.biasGate1) p.hiddenH from
      vecMult_eq_zipWith (by simp [hh]),
      show vecAdd p.inputX
          (List.zipWith (· * ·)
            (vecSigmoid (vecAdd p.inputX p.hiddenH) p.biasGate1) p.hiddenH) =
        List.zipWith (· + ·) p.inputX
          (List.zipWith (· * ·)
            (vecSigmoid (vecAdd p.inputX p.hiddenH) p.biasGate1) p.hiddenH) from
      vecAdd_eq_zipWith (by simp [hh]),
      vecTanh_zero_bias]
  · exact mapIdx_getD2_eq_zipWith3 (fun z h n => (1 - z) * h + z * n) _ _ _
      (by simp [hh]) (by simp [hh])

/-- Witness for C4: at dimensionality 1 with inputX=[1], hiddenPrev=[0] and
zero biases the GRU returns candidateState = [tanh 1] and
finalHidden = [sigmoid 1 · tanh 1]. -/
theorem gru_evaluate_formulas_witness :
    exampleGRUParams.hiddenH.length = exampleGRUParams.inputX.length ∧
    (calculateModel ModelType.GRU exampleGRUParams).candidateState =
      [Real.tanh 1] ∧
    (calculateModel ModelType.GRU exampleGRUParams).finalH =
      [sigmoid 1 * Real.tanh 1] := by
  have h := gru_evaluate_formulas exampleGRUParams rfl
  have hcand : (calculateModel ModelType.GRU exampleGRUParams).candidateState =
      [Real.tanh 1] := by
    rw [h.2.2.1, h.1]
    norm_num [exampleGRUParams]
  refine ⟨rfl, hcand, ?_⟩
  rw [h.2.2.2, h.2.1, hcand]
  norm_num [exampleGRUParams, zipWith3]

/-- Claim C3: for every SimulationParams (vectors at the configured matched
length, cell state present), evaluate(LongShortTermMemory, params) returns
gate1 = sigmoid(inputX + hiddenPrev, bias1),
gate2 = sigmoid(inputX + hiddenPrev, bias2),
gate3 = sigmoid(inputX + hiddenPrev, bias3),
candidateState = tanh(inputX + hiddenPrev, 0),
finalCell = gate1*cellPrev + gate2*candidateState,
tanhCell = tanh(finalCell), and finalHidden = gate3 * tanh(finalCell),
all elementwise. -/
theorem lstm_evaluate_formulas (p : SimulationParams) (c : List ℝ)
    (hh : p.hiddenH.length = p.inputX.length)
    (hc : p.cellC = some c) (hcl : c.length = p.inputX.length) :
    (calculateModel ModelType.LSTM p).gate1 =
      (List.zipWith (· + ·) p.inputX p.hiddenH).map
        (fun m => sigmoid (m + p.biasGate1)) ∧
    (calculateModel ModelType.LSTM p).gate2 =
      (List.zipWith (· + ·) p.inputX p.hiddenH).map
        (fun m => sigmoid (m + p.biasGate2)) ∧
    (calculateModel ModelType.LSTM p).gate3 =
      (List.zipWith (· + ·) p.inputX p.hiddenH).map
        (fun m => sigmoid (m + p.biasGate3)) ∧
    (calculateModel ModelType.LSTM p).candidateState =
      (List.zipWith (· + ·) p.inputX p.hiddenH).map Real.tanh ∧
    (calculateModel ModelType.LSTM p).finalC = some
      (List.zipWith (· + ·)
        (List.zipWith (· * ·) (calculateModel ModelType.LSTM p).gate1 c)
        (List.zipWith (· * ·) (calculateModel ModelType.LSTM p).gate2
          (calculateModel ModelType.LSTM p).candidateState)) ∧
    (∀ cNew, (calculateModel ModelType.LSTM p).finalC = some cNew →
      (calculateModel ModelType.LSTM p).tanhC = some (cNew.map Real.tanh) ∧
      (calculateModel ModelType.LSTM p).finalH =
        List.zipWith (· * ·) (calculateModel ModelType.LSTM p).gate3
          (cNew.map Real.tanh)) := by
  have hsum : vecAdd p.inputX p.hiddenH =
      List.zipWith (· + ·) p.inputX p.hiddenH := vecAdd_eq_zipWith hh
  simp only [calculateModel, hc, Option.getD_some]
  refine ⟨?_, ?_, ?_, ?_, ?_, ?_⟩
  · rw [hsum, vecSigmoid_eq_map_sigmoid]
  · rw [hsum, vecSigmoid_eq_map_sigmoid]
  · rw [hsum, vecSigmoid_eq_map_sigmoid]
  · rw [hsum, vecTanh_zero_bias]
  · rw [show vecMult (vecSigmoid (vecAdd p.inputX p.hiddenH) p.biasGate1) c =
        List.zipWith (· * ·)
          (vecSigmoid (vecAdd p.inputX p.hiddenH) p.biasGate1) c from
      vecMult_eq_zipWith (by simp [hcl]),
      show vecMult (vecSigmoid (vecAdd p.inputX p.hiddenH) p.biasGate2)
          (vecTanh (vecAdd p.inputX p.hiddenH) 0) =
        List.zipWith (· * ·)
          (vecSigmoid (vecAdd p.inputX p.hiddenH) p.biasGate2)
          (vecTanh (vecAdd p.inputX p.hiddenH) 0) from
      vecMult_eq_zipWith (by simp)]
    rw [vecAdd_eq_zipWith (by simp [hcl])]
  · intro cNew hNew
    simp only [Option.some.injEq] at hNew
    subst hNew
    constructor
    · rw [vecTanh_zero_bias]
    · rw [vecTanh_zero_bias,
        vecMult_eq_zipWith (by simp)]

/-- Witness for C3: the spec's LSTM end-to-end scenario — dimensionality 1,
inputX=[2], hiddenPrev=[0], cellPrev=[0], all biases 0 — gives
finalCell = [sigmoid 2 · tanh 2] and
finalHidden = [sigmoid 2 · tanh (sigmoid 2 · tanh 2)] (≈ [0.609]). -/
theorem lstm_evaluate_formulas_witness :
    exampleLSTMParams.cellC = some [0] ∧
    (calculateModel ModelType.LSTM exampleLSTMParams).finalC =
      some [sigmoid 2 * Real.tanh 2] ∧
    (calculateModel ModelType.LSTM exampleLSTMParams).finalH =
      [sigmoid 2 * Real.tanh (sigmoid 2 * Real.tanh 2)] := by
  have h := lstm_evaluate_formulas exampleLSTMParams [0] rfl rfl rfl
  have hC : (calculateModel ModelType.LSTM exampleLSTMParams).finalC =
      some [sigmoid 2 * Real.tanh 2] := by
    rw [h.2.2.2.2.1, h.1, h.2.1, h.2.2.2.1]
    norm_num [exampleLSTMParams]
  refine ⟨rfl, hC, ?_⟩
  have h6 := (h.2.2.2.2.2 [sigmoid 2 * Real.tanh 2] hC).2
  rw [h6, h.2.2.1]
  norm_num [exampleLSTMParams]

/-- Claim C10: with `cellC` absent, evaluate(LongShortTermMemory, params)
does not fail — the previous cell state is read as the all-zeros vector of
inputX's length, so finalCell = gate2 * candidateState elementwise. -/
theorem lstm_missing_cell_defaults_to_zero (p : SimulationParams)
    (hc : p.cellC = none) :
    (calculateModel ModelType.LSTM p).finalC =
      some (List.zipWith (· * ·) (calculateModel ModelType.LSTM p).gate2
        (calculateModel ModelType.LSTM p).candidateState) := by
  simp only [calculateModel, hc, Option.getD_none]
  rw [vecMult_replicate_zero]
  rw [show (vecSigmoid (vecAdd p.inputX p.hiddenH) p.biasGate1).length =
      (vecMult (vecSigmoid (vecAdd p.inputX p.hiddenH) p.biasGate2)
        (vecTanh (vecAdd p.inputX p.hiddenH) 0)).length from by simp]
  rw [vecAdd_replicate_zero, vecMult_eq_zipWith (by simp)]

/-- Witness for C10: inputX=[2], hiddenPrev=[0], absent cellC — the LSTM
branch runs and returns finalCell = [sigmoid 2 · tanh 2]. -/
theorem lstm_missing_cell_defaults_to_zero_witness :
    exampleNoCellParams.cellC = none ∧
    (calculateModel ModelType.LSTM exampleNoCellParams).finalC =
      some [sigmoid 2 * Real.tanh 2] := by
  have h := lstm_missing_cell_defaults_to_zero exampleNoCellParams rfl
  refine ⟨rfl, ?_⟩
  rw [h]
  norm_num [calculateModel, exampleNoCellParams, vecAdd, vecSigmoid, vecTanh,
    sigmoid]

/-- Claim C6: for every architecture and input, every element of every
reported gate vector lies strictly in (0,1), and every element of
candidateState — and of tanhCell for the LSTM — lies strictly in (-1,1). -/
theorem evaluate_gates_bounded (t : ModelType) (p : SimulationParams) :
    (∀ x ∈ (calculateModel t p).gate1, x ∈ Set.Ioo (0 : ℝ) 1) ∧
    (∀ x ∈ (calculateModel t p).gate2, x ∈ Set.Ioo (0 : ℝ) 1) ∧
    (∀ x ∈ (calculateModel t p).gate3, x ∈ Set.Ioo (0 : ℝ) 1) ∧
    (∀ x ∈ (calculateModel t p).candidateState, x ∈ Set.Ioo (-1 : ℝ) 1) ∧
    (∀ l, (calculateModel t p).tanhC = some l →
      ∀ x ∈ l, x ∈ Set.Ioo (-1 : ℝ) 1) := by
  cases t
  case UGRNN =>
    simp only [calculateModel]
    refine ⟨fun x hx => mem_vecSigmoid hx, ?_, ?_,
      fun x hx => mem_vecTanh hx, ?_⟩
    · intro x hx
      simp at hx
    · intro x hx
      simp at hx
    · intro l hl
      simp at hl
  case GRU =>
    simp only [calculateModel]
    refine ⟨fun x hx => mem_vecSigmoid hx, fun x hx => mem_vecSigmoid hx, ?_,
      fun x hx => mem_vecTanh hx, ?_⟩
    · intro x hx
      simp at hx
    · intro l hl
      simp at hl
  case LSTM =>
    simp only [calculateModel]
    refine ⟨fun x hx => mem_vecSigmoid hx, fun x hx => mem_vecSigmoid hx,
      fun x hx => mem_vecSigmoid hx, fun x hx => mem_vecTanh hx, ?_⟩
    intro l hl
    simp only [Option.some.injEq] at hl
    subst hl
    exact fun x hx => mem_vecTanh hx

/-- Witness for C6: the UGRNN gate at all-zero inputs evaluates to [1/2],
and 1/2 indeed lies in (0,1). -/
theorem evaluate_gates_bounded_witness :
    ((1 : ℝ) / 2) ∈ Set.Ioo (0 : ℝ) 1 := by
  have h := (evaluate_gates_bounded ModelType.UGRNN exampleZeroParams).1
  apply h
  norm_num [calculateModel, exampleZeroParams, vecAdd, vecSigmoid,
    Real.exp_zero]

/-- Counterexample for C7: `add` is NOT elementwise over the longer length.
With v1=[1], v2=[2,3] the code returns [3] — length 1, not max-length 2 —
and the claimed element at index 1 (0 + 3) does not exist (a defaulted read
gives 0 ≠ 0 + 3). -/
theorem vecAdd_longer_second_operand_cex :
    vecAdd [(1 : ℝ)] [2, 3] = [3] ∧
    (vecAdd [(1 : ℝ)] [2, 3]).length ≠ ([(2 : ℝ), 3]).length ∧
    (vecAdd [(1 : ℝ)] [2, 3]).getD 1 0 ≠ (0 : ℝ) + 3 := by
  refine ⟨?_, ?_, ?_⟩ <;> norm_num [vecAdd]

/-- Claim C7, amended: `add(v1, v2)` and `multiply(v1, v2)` are elementwise
over v1's length — element i is v1[i] + v2[i] (resp. v1[i] * v2[i]) with a
missing v2 element read as 0; trailing elements of a longer v2 are dropped. -/
theorem vecAdd_vecMult_elementwise (v1 v2 : List ℝ) :
    (vecAdd v1 v2).length = v1.length ∧
    (vecMult v1 v2).length = v1.length ∧
    (∀ i, i < v1.length →
      (vecAdd v1 v2).getD i 0 = v1.getD i 0 + v2.getD i 0) ∧
    (∀ i, i < v1.length →
      (vecMult v1 v2).getD i 0 = v1.getD i 0 * v2.getD i 0) :=
  ⟨length_vecAdd v1 v2, length_vecMult v1 v2,
    fun _ hi => getD_vecAdd v1 v2 hi, fun _ hi => getD_vecMult v1 v2 hi⟩

/-- Witness for amended C7: (add [5] [7,9])[0] = 12 and
(multiply [5] [7,9])[0] = 35. -/
theorem vecAdd_vecMult_elementwise_witness :
    (vecAdd [(5 : ℝ)] [7, 9]).getD 0 0 = 12 ∧
    (vecMult [(5 : ℝ)] [7, 9]).getD 0 0 = 35 := by
  have h := vecAdd_vecMult_elementwise [(5 : ℝ)] [7, 9]
  constructor
  · rw [h.2.2.1 0 (by norm_num)]
    norm_num
  · rw [h.2.2.2 0 (by norm_num)]
    norm_num

/-- Counterexample for C8: shrinking [1,2] to dimensionality 1 and growing
back to 2 yields [1,0]; index 1, originally present with value 2, now
reads 0. -/
theorem resize_roundtrip_cex :
    resize 2 (resize 1 [(1 : ℝ), 2]) = [1, 0] ∧
    (resize 2 (resize 1 [(1 : ℝ), 2])).getD 1 0 ≠ ([(1 : ℝ), 2]).getD 1 0 := by
  have h1 : resize 1 [(1 : ℝ), 2] = [1] := by
    rw [resize_of_lt (by norm_num)]
    rfl
  have h2 : resize 2 [(1 : ℝ)] = [1, 0] := by
    rw [resize_of_gt (by norm_num)]
    rfl
  rw [h1, h2]
  norm_num

/-- Claim C8, amended: resizing the parameter vectors to dimensionality d2
and back to the original d recovers every index below min(d2, d); in
particular for d ≤ d2 (zero-extension then truncation) every vector field is
recovered exactly.  Indices ≥ d2 of a shrunken-then-regrown vector are
zero-filled, not recovered. -/
theorem changeDim_roundtrip (p : SimulationParams) (c : List ℝ) (d d2 : ℕ)
    (hx : p.inputX.length = d) (hhl : p.hiddenH.length = d)
    (hc : p.cellC = some c) (hcl : c.length = d) :
    (d ≤ d2 →
      (changeDim d (changeDim d2 p)).inputX = p.inputX ∧
      (changeDim d (changeDim d2 p)).hiddenH = p.hiddenH ∧
      (changeDim d (changeDim d2 p)).cellC = some c) ∧
    (∀ i, i < min d2 d →
      (changeDim d (changeDim d2 p)).inputX.getD i 0 = p.inputX.getD i 0 ∧
      (changeDim d (changeDim d2 p)).hiddenH.getD i 0 = p.hiddenH.getD i 0 ∧
      ((changeDim d (changeDim d2 p)).cellC.getD []).getD i 0 =
        c.getD i 0) := by
  simp only [changeDim, hc]
  constructor
  · intro hle
    exact ⟨resize_resize_of_le p.inputX hx hle,
      resize_resize_of_le p.hiddenH hhl hle,
      by rw [resize_resize_of_le c hcl hle]⟩
  · intro i hi
    refine ⟨resize_resize_getD p.inputX hx hi,
      resize_resize_getD p.hiddenH hhl hi, ?_⟩
    simp only [Option.getD_some]
    exact resize_resize_getD c hcl hi

/-- Witness for amended C8: growing [1,2] to dimensionality 3 and back
recovers it exactly, and after a shrink to 1 and regrow, index 0 is still
recovered. -/
theorem changeDim_roundtrip_witness :
    (changeDim 2 (changeDim 3 exampleUGRNNParams)).inputX = [1, 0] ∧
    (changeDim 2 (changeDim 1 exampleUGRNNParams)).inputX.getD 0 0 = 1 := by
  have h3 := changeDim_roundtrip exampleUGRNNParams [0, 0] 2 3 rfl rfl rfl rfl
  have h1 := changeDim_roundtrip exampleUGRNNParams [0, 0] 2 1 rfl rfl rfl rfl
  constructor
  · exact (h3.1 (by norm_num)).1
  · rw [(h1.2 0 (by norm_num)).1]
    norm_num [exampleUGRNNParams]

/-- Claim C1 is violated by the code (code bug): because the `Node` click
guard `state === 'active' || onClick` is always true for step nodes, the
user may trigger the final `add` node first.  One trigger of `add` from the
initial state marks `add` done while its declared dependency `interp` (and
`concat`, `gates`) is still pending, and emits "graph resolved"; a second
trigger of `add` emits it again — so a node is reported done before its
dependencies and the resolved signal fires more than once. -/
theorem ugrnn_trigger_violates_deps_and_double_resolve :
    uDeps UStep.add = [UStep.interp] ∧
    getUStep initialUSteps UStep.add = StepState.pending ∧
    (runTriggersU [UStep.add] initialUSteps).1.add = StepState.done ∧
    (runTriggersU [UStep.add] initialUSteps).1.interp = StepState.pending ∧
    (runTriggersU [UStep.add] initialUSteps).1.concat ≠ StepState.done ∧
    (runTriggersU [UStep.add] initialUSteps).2 = 1 ∧
    (runTriggersU [UStep.add, UStep.add] initialUSteps).2 = 2 := by
  decide

/-- Claim C2 is violated by the code (code bug): triggering the pending
`gates` node from the initial state is not rejected — the `Node` guard
accepts the click (`state === 'active' || onClick` is true since a handler
is always passed), `computeStep` runs, and the node state changes. -/
theorem ugrnn_pending_trigger_not_rejected :
    getUStep initialUSteps UStep.gates = StepState.pending ∧
    nodeAcceptsClick StepState.pending true = true ∧
    (triggerU UStep.gates initialUSteps).1.gates = StepState.done ∧
    (triggerU UStep.gates initialUSteps).1 ≠ initialUSteps := by
  decide

/-- Claim C9 is violated by the code (code bug): the reset `useEffect` has no
cleanup and `clearTimeout` is never called, so when the user clicks `concat`
(putting it in `computing`) and then edits `inputX`/`hiddenH` before the
500 ms timeout fires, the stale callback runs against the freshly reset
state and marks `concat` done (activating `gates`) in the new instance. -/
theorem ugrnn_stale_timeout_writes_into_fresh_state :
    resetUSteps (setComputing initialUSteps UStep.concat) = initialUSteps ∧
    (stepTimeout (resetUSteps (setComputing initialUSteps UStep.concat))
      UStep.concat).1.concat = StepState.done ∧
    (stepTimeout (resetUSteps (setComputing initialUSteps UStep.concat))
      UStep.concat).1.gates = StepState.active ∧
    (stepTimeout (resetUSteps (setComputing initialUSteps UStep.concat))
      UStep.concat).1 ≠ initialUSteps := by
  decide
